import Mathlib

/-!
The `um status` command (`status.go`).

A shallow embedding of the six status probes (`gatherOsInfo`, `gatherHwInfo`,
`gatherDiskInfo`, `gatherDesktop`, `statusInfo`, `networkInfo`) and of the
aggregator `status`, followed by the properties proved about them.

Every call into the operating system or into a library is a read; the value it
hands back is taken from a record of inputs (`OsInfoEnv`, `HwEnv`, ...), so a
probe is a function of what its reads return.  A Go `error` is modelled by its
message, a `([]string, error)` return by `GoResult (List String)`, a Go string
by a `String` (the texts handled are valid UTF-8), and `fmt.Sprintf` with `%s`
and `%d` verbs by concatenation.  What a function writes to standard output is
returned next to its result.
-/

namespace Um

/-- A Go `error` value, identified with its message (`err.Error()`). -/
abbrev Error := String

/-- How a Go function that returns `(T, error)` ends: with a value and a nil
error, with a non-nil error, or with a run-time panic. -/
inductive GoResult (α : Type) where
  | ok (v : α)
  | error (e : Error)
  | panic
  deriving DecidableEq, Repr

/-- The collaborators `status.go` uses without defining them: the two lipgloss
renderers `listHeader` and `listItem`, `util.FormatBytes` and the constant
`runtime.GOARCH`. -/
structure Ctx where
  listHeader : String → String
  listItem : String → String
  FormatBytes : Int → String
  GOARCH : String

/-- Go's conversion `string(i)` of an integer: the string holding the single
code point `i`, and U+FFFD when `i` is not a valid code point. -/
def goString (i : Nat) : String :=
  String.singleton (if i.isValidChar then Char.ofNat i else Char.ofNat 0xFFFD)

/-- Go's conversion `int64(x)`: the value modulo 2^64, read as signed. -/
def int64 (x : Int) : Int :=
  (x + 2 ^ 63) % 2 ^ 64 - 2 ^ 63

/-- Go's `strings.HasPrefix(s, p)`. -/
def HasPrefix (s p : String) : Bool :=
  p.data.isPrefixOf s.data

/-- A Go `map[string]string`, as its list of entries. -/
abbrev GoMap := List (String × String)

/-- Indexing `m[k]` of a `map[string]string`: the zero value `""` when the key
is absent. -/
def GoMap.index (m : GoMap) (k : String) : String :=
  (m.lookup k).getD ""

/-! ## `gatherOsInfo` -/

/-- What `gatherOsInfo` reads: the result of `osrelease.Read()`. -/
structure OsInfoEnv where
  osreleaseRead : Except Error GoMap

/-- The variable `atomicValue` of `gatherOsInfo` (status.go, lines 118-124). -/
def atomicValue (release : GoMap) : String :=
  if HasPrefix (release.index "VARIANT") "Atomic" then "True" else "False"

/-- Embeds `gatherOsInfo` (status.go, lines 112-133). -/
def gatherOsInfo (c : Ctx) (env : OsInfoEnv) : GoResult (List String) :=
  match env.osreleaseRead with
  | .error err => .error err
  | .ok release =>
    .ok [ c.listHeader "System",
          c.listItem ("Name: " ++ release.index "NAME"),
          c.listItem ("Version: " ++ release.index "VERSION"),
          c.listItem ("Variant: " ++ release.index "VARIANT"),
          c.listItem ("Atomic: " ++ atomicValue release) ]

/-- The release map of the scenario NAME=Ultramarine, VERSION=40,
VARIANT=Atomic Desktop. -/
def ultramarineRelease : GoMap :=
  [("NAME", "Ultramarine"), ("VERSION", "40"), ("VARIANT", "Atomic Desktop")]

/-! ## `gatherDesktop` -/

/-- What `gatherDesktop` reads: the process environment, as `os.Getenv` sees it
(an unset variable reads as `""`). -/
structure DesktopEnv where
  Getenv : String → String

/-- The protocol chosen by `gatherDesktop` (status.go, lines 244-252). -/
def desktopProtocol (env : DesktopEnv) : String :=
  if env.Getenv "WAYLAND_DISPLAY" ≠ "" then "Wayland"
  else if env.Getenv "DISPLAY" ≠ "" then "X11"
  else "Unknown"

/-- Embeds `gatherDesktop` (status.go, lines 243-260). -/
def gatherDesktop (c : Ctx) (env : DesktopEnv) : GoResult (List String) :=
  let protocol := desktopProtocol env
  .ok [ c.listHeader "Desktop",
        c.listItem ("Name: " ++ env.Getenv "XDG_CURRENT_DESKTOP"),
        c.listItem ("Protocol: " ++ protocol) ]

/-! ## `gatherDiskInfo` -/

/-- A `ghw` partition, with the two fields `status.go` reads (`Type_` is the
field `Type`). -/
structure Partition where
  MountPoint : String
  Type_ : String

/-- A `ghw` disk, with the fields `status.go` reads; `DriveType` and
`StorageController` hold what their `String()` methods return. -/
structure Disk where
  Name : String
  Model : String
  BusPath : String
  DriveType : String
  StorageController : String
  Partitions : List Partition

/-- The value of `ghw.Block()`. -/
structure BlockInfo where
  Disks : List Disk

/-- What `gatherDiskInfo` reads: the result of `ghw.Block()`. -/
structure DiskEnv where
  Block : Except Error BlockInfo

/-- The title of the disk at index `i` among `n` disks (status.go, lines
230-233). -/
def diskTitle (n i : Nat) : String :=
  if n > 1 then "Disk" ++ goString i else "Disk"

/-- One iteration of the loop of `gatherDiskInfo` (status.go, lines 225-238). -/
def diskStep (c : Ctx) (n : Nat) (result : List String) (x : Nat × Disk) : List String :=
  if x.2.BusPath = "unknown" then result
  else
    let title := diskTitle n x.1
    let result := result ++ [c.listItem (title ++ ": " ++ x.2.Model ++ " (" ++ x.2.Name ++ ")")]
    let result := result ++ [c.listItem (title ++ " Type: " ++ x.2.DriveType)]
    let result := result ++ [c.listItem (title ++ " Controler: " ++ x.2.StorageController)]
    result

/-- Embeds `gatherDiskInfo` (status.go, lines 215-241). -/
def gatherDiskInfo (c : Ctx) (env : DiskEnv) : GoResult (List String) :=
  let result := [c.listHeader "Disk"]
  match env.Block with
  | .error err => .error err
  | .ok block => .ok (block.Disks.enum.foldl (diskStep c block.Disks.length) result)

/-! ## `gatherHwInfo` -/

/-- A `ghw` processor. -/
structure Processor where
  Model : String

/-- The value of `ghw.CPU()`. -/
structure CPUInfo where
  Processors : List Processor

/-- The product of a PCI device, with the field that is read. -/
structure PCIProduct where
  Name : String

/-- The PCI device a graphics card points to.  `Product` is a pointer, `none`
being the nil pointer. -/
structure PCIDevice where
  Product : Option PCIProduct
  Driver : String

/-- A `ghw` graphics card.  `DeviceInfo` is a pointer, `none` being the nil
pointer that `ghw` leaves when it finds no PCI information for the card. -/
structure GraphicsCard where
  DeviceInfo : Option PCIDevice

/-- The value of `ghw.GPU()`. -/
structure GPUInfo where
  GraphicsCards : List GraphicsCard

/-- The value `ghw.Baseboard` points to. -/
structure BaseboardInfo where
  Vendor : String
  Product : String

/-- The value of `ghw.Memory()` (two `int64` fields). -/
structure MemoryInfo where
  TotalPhysicalBytes : Int
  TotalUsableBytes : Int

/-- The value of `mem.Get()` (`SwapTotal` is a `uint64`). -/
structure MemoryStats where
  SwapTotal : Nat

/-- The two fields of `unix.Statfs_t` that are read (`Bavail` is a `uint64`,
`Bsize` an `int64`). -/
structure Statfs_t where
  Bavail : Nat
  Bsize : Int

/-- What `gatherHwInfo` reads.  `Baseboard` keeps the pointer and the error of
`ghw.Baseboard` apart, because the pointer is dereferenced whatever the error
is (`none` is the nil pointer); `Getwd` is the pair `os.Getwd()` returns;
`Statfs` maps the path to what the call writes into `stat` when it succeeds. -/
structure HwEnv where
  CPU : Except Error CPUInfo
  GPU : Except Error GPUInfo
  Baseboard : Option BaseboardInfo × Option Error
  Memory : Except Error MemoryInfo
  memGet : Except Error MemoryStats
  Getwd : String × Option Error
  Statfs : String → Except Error Statfs_t
  Block : Except Error BlockInfo

/-- What a probe hands back: the strings it wrote to standard output itself,
in order, and its return value. -/
structure ProbeOut where
  stdout : List String
  result : GoResult (List String)

/-- The title of the processor at index `i` among `n` processors (status.go,
lines 174-177). -/
def cpuTitle (n i : Nat) : String :=
  if n > 1 then "CPU" ++ goString i else "CPU"

/-- The title of the graphics card at index `i`, `n` being the number of
processors (status.go, lines 183-186). -/
def gpuTitle (n i : Nat) : String :=
  if n > 1 then "GPU" ++ goString i else "GPU"

/-- One iteration of the processor loop (status.go, lines 173-180). -/
def cpuStep (c : Ctx) (n : Nat) (result : List String) (x : Nat × Processor) : List String :=
  let title := cpuTitle n x.1
  result ++ [c.listItem (title ++ ": " ++ x.2.Model ++ " (" ++ c.GOARCH ++ ")")]

/-- One iteration of the graphics-card loop (status.go, lines 182-190): `none`
is the panic of line 188 when `card.DeviceInfo` or its `Product` is nil. -/
def gpuStep (c : Ctx) (n : Nat) (result : List String) (x : Nat × GraphicsCard) :
    Option (List String) :=
  let title := gpuTitle n x.1
  match x.2.DeviceInfo with
  | none => none
  | some DeviceInfo =>
  match DeviceInfo.Product with
  | none => none
  | some Product =>
  let result := result ++ [c.listItem (title ++ ": " ++ Product.Name)]
  let result := result ++ [c.listItem (title ++ " Driver: " ++ DeviceInfo.Driver)]
  some result

/-- One iteration of the inner partition loop (status.go, lines 204-209). -/
def partStep (c : Ctx) (disk : Disk) (result : List String) (part : Partition) : List String :=
  if part.MountPoint = "/" then
    let result := result ++ [c.listItem ("Disk Type: " ++ disk.StorageController)]
    let result := result ++ [c.listItem ("Filesystem: " ++ part.Type_)]
    result
  else result

/-- One iteration of the outer disk loop (status.go, lines 203-210). -/
def rootStep (c : Ctx) (result : List String) (disk : Disk) : List String :=
  disk.Partitions.foldl (partStep c disk) result

/-- The free space computed at status.go, lines 192-195: `stat` keeps its zero
value when `unix.Statfs` fails. -/
def diskFree (env : HwEnv) : Int :=
  let stat : Statfs_t :=
    match env.Statfs env.Getwd.1 with
    | .ok st => st
    | .error _ => ⟨0, 0⟩
  int64 (int64 stat.Bavail * int64 stat.Bsize)

/-- What `gatherHwInfo` writes to standard output itself (status.go, lines
150-153), once the two first enumerations have succeeded. -/
def baseboardWarning (env : HwEnv) : List String :=
  match env.Baseboard.2 with
  | some err => ["Error getting baseboard info: " ++ err]
  | none => []

/-- Embeds `gatherHwInfo` (status.go, lines 135-213). -/
def gatherHwInfo (c : Ctx) (env : HwEnv) : ProbeOut :=
  match env.CPU with
  | .error err => ⟨[], .error err⟩
  | .ok cpu =>
  match env.GPU with
  | .error err => ⟨[], .error err⟩
  | .ok gpu =>
  let result := [c.listHeader "Hardware"]
  let out := baseboardWarning env
  match env.Baseboard.1 with
  | none => ⟨out, .panic⟩
  | some baseboard =>
  let result := result ++ [c.listItem ("Vendor: " ++ baseboard.Vendor)]
  let result := result ++ [c.listItem ("Product: " ++ baseboard.Product)]
  match env.Memory with
  | .error err => ⟨out, .error err⟩
  | .ok memory =>
  match env.memGet with
  | .error err => ⟨out, .error err⟩
  | .ok memoryStats =>
  let result := result ++ [c.listItem ("Memory: " ++
    c.FormatBytes (int64 memory.TotalPhysicalBytes) ++ " (physical), " ++
    c.FormatBytes (int64 memory.TotalUsableBytes) ++ " (usuable)")]
  let result := result ++ [c.listItem ("Swap: " ++ c.FormatBytes (int64 memoryStats.SwapTotal))]
  let result := cpu.Processors.enum.foldl (cpuStep c cpu.Processors.length) result
  match gpu.GraphicsCards.enum.foldlM (gpuStep c cpu.Processors.length) result with
  | none => ⟨out, .panic⟩
  | some result =>
  let result := result ++ [c.listItem ("Disk Free: " ++ c.FormatBytes (diskFree env))]
  match env.Block with
  | .error err => ⟨out, .error err⟩
  | .ok block => ⟨out, .ok (block.Disks.foldl (rootStep c) result)⟩

/-! ## `networkInfo` -/

/-- The constant `gonetworkmanager.NmActiveConnectionStateActivated` of the
enumeration `NmActiveConnectionState` (unknown 0, activating 1, activated 2,
deactivating 3, deactivated 4). -/
def NmActiveConnectionStateActivated : Nat := 2

/-- An active connection, as what its two property reads return. -/
structure ActiveConnection where
  GetPropertyState : Except Error Nat
  GetPropertyType : Except Error String

/-- A network device, as what its two property reads return; an active
connection `none` is the nil connection. -/
structure Device where
  GetPropertyInterface : Except Error String
  GetPropertyActiveConnection : Except Error (Option ActiveConnection)

/-- The connection manager, as what `GetPropertyAllDevices` returns. -/
structure NetworkManager where
  GetPropertyAllDevices : Except Error (List Device)

/-- What `networkInfo` reads: the result of
`gonetworkmanager.NewNetworkManager()`. -/
structure NetworkEnv where
  NewNetworkManager : Except Error NetworkManager

/-- The state of the loop of `networkInfo`: what has been written to standard
output and the slice `devicesInfo`. -/
structure NetLoop where
  stdout : List String
  devicesInfo : List String

/-- The effect of `fmt.Println(err.Error())` followed by `continue`. -/
def NetLoop.report (s : NetLoop) (err : Error) : NetLoop :=
  { s with stdout := s.stdout ++ [err ++ "\n"] }

/-- One iteration of the loop of `networkInfo` (status.go, lines 47-82). -/
def networkStep (c : Ctx) (s : NetLoop) (device : Device) : NetLoop :=
  match device.GetPropertyInterface with
  | .error err => s.report err
  | .ok deviceInterface =>
  match device.GetPropertyActiveConnection with
  | .error err => s.report err
  | .ok none => s
  | .ok (some connection) =>
  match connection.GetPropertyState with
  | .error err => s.report err
  | .ok status =>
  match connection.GetPropertyType with
  | .error err => s.report err
  | .ok proptype =>
  let statusString :=
    if status = NmActiveConnectionStateActivated then "Connected" else "Unknown"
  { s with devicesInfo := s.devicesInfo ++
      [c.listItem (deviceInterface ++ " (" ++ proptype ++ "): " ++ statusString)] }

/-- Embeds `networkInfo` (status.go, lines 32-85). -/
def networkInfo (c : Ctx) (env : NetworkEnv) : ProbeOut :=
  match env.NewNetworkManager with
  | .error err => ⟨[], .error err⟩
  | .ok nm =>
  match nm.GetPropertyAllDevices with
  | .error err => ⟨[], .error err⟩
  | .ok devices =>
  let s := devices.foldl (networkStep c) ⟨[], [c.listHeader "Network"]⟩
  ⟨s.stdout, .ok s.devicesInfo⟩

/-! ## `statusInfo` -/

/-- What `statusInfo` reads: `Uptime` is `uptime.Get()` with the duration as
its `String()`, `Uname` is `unix.Uname` with the release as
`string(u.Release[:])`, and the three counters of package `util`. -/
structure StatusEnv where
  Uptime : Except Error String
  Uname : Except Error String
  GetInstalledRpmCount : Int
  GetInstalledSystemFlatpakCount : Int
  GetInstalledUserFlatpakCount : Int

/-- Embeds `statusInfo` (status.go, lines 87-110). -/
def statusInfo (c : Ctx) (env : StatusEnv) : GoResult (List String) :=
  match env.Uptime with
  | .error err => .error err
  | .ok dur =>
  match env.Uname with
  | .error err => .error err
  | .ok release =>
  let rpmCount := env.GetInstalledRpmCount
  let systemFlatpakCount := env.GetInstalledSystemFlatpakCount
  let userFlatpakCount := env.GetInstalledUserFlatpakCount
  .ok [ c.listHeader "Status",
        c.listItem ("Uptime: " ++ dur),
        c.listItem ("Kernel: " ++ release),
        c.listItem ("Packages: " ++ toString rpmCount ++ " rpms, " ++
          toString systemFlatpakCount ++ " system flatpaks, " ++
          toString userFlatpakCount ++ " user flatpaks") ]

/-! ## `status` -/

/-- What can be observed of a run of `status`: the call of a probe, a string a
probe writes to standard output, and the printing of a section by `status`
(`fmt.Println(lipgloss.JoinVertical(lipgloss.Left, lines...))`). -/
inductive Event where
  | call (probe : String)
  | text (s : String)
  | printSection (lines : List String)
  deriving DecidableEq, Repr

/-- A run of `status`: its return value and what it did, in order. -/
structure Run where
  result : GoResult Unit
  trace : List Event

/-- A probe that writes nothing itself. -/
def ProbeOut.quiet (r : GoResult (List String)) : ProbeOut := ⟨[], r⟩

/-- One probe call of `status` followed by its error check and its `Println`
(for instance status.go, lines 263-267): `rest` is the remainder of the
function, run only when the probe returns a nil error. -/
def statusStep (name : String) (p : ProbeOut) (rest : Run) : Run :=
  let pre := Event.call name :: p.stdout.map Event.text
  match p.result with
  | .error err => ⟨.error err, pre⟩
  | .panic => ⟨.panic, pre⟩
  | .ok lines => ⟨rest.result, pre ++ Event.printSection lines :: rest.trace⟩

/-- The body of `status` (status.go, lines 262-300) over what the six probes
hand back when they are called. -/
def statusOf (osinfo hwinfo diskinfo desktopinfo statusinfo networkinfo : ProbeOut) : Run :=
  statusStep "gatherOsInfo" osinfo <|
  statusStep "gatherHwInfo" hwinfo <|
  statusStep "gatherDiskInfo" diskinfo <|
  statusStep "gatherDesktop" desktopinfo <|
  statusStep "statusInfo" statusinfo <|
  statusStep "networkInfo" networkinfo <|
  ⟨.ok (), []⟩

/-- Everything a run of `status` reads. -/
structure Env where
  os : OsInfoEnv
  hw : HwEnv
  disk : DiskEnv
  desktop : DesktopEnv
  status : StatusEnv
  network : NetworkEnv

/-- Embeds `status` (status.go, lines 262-300). -/
def status (c : Ctx) (env : Env) : Run :=
  statusOf (.quiet (gatherOsInfo c env.os)) (gatherHwInfo c env.hw)
    (.quiet (gatherDiskInfo c env.disk)) (.quiet (gatherDesktop c env.desktop))
    (.quiet (statusInfo c env.status)) (networkInfo c env.network)

/-- The probes called in a trace, in order. -/
def calls (t : List Event) : List String :=
  t.filterMap fun e => match e with
    | .call n => some n
    | _ => none

/-- The sections printed in a trace, in order. -/
def sections (t : List Event) : List (List String) :=
  t.filterMap fun e => match e with
    | .printSection l => some l
    | _ => none

/-- The order in which `status` calls the probes. -/
def probeOrder : List String :=
  ["gatherOsInfo", "gatherHwInfo", "gatherDiskInfo", "gatherDesktop", "statusInfo", "networkInfo"]

/-! ## Closed forms used in the statements -/

/-- The three lines shown for the disk `x.2` found at index `x.1` among `n`
disks: model and name, drive type, storage controller. -/
def diskLines (c : Ctx) (n : Nat) (x : Nat × Disk) : List String :=
  [ c.listItem (diskTitle n x.1 ++ ": " ++ x.2.Model ++ " (" ++ x.2.Name ++ ")"),
    c.listItem (diskTitle n x.1 ++ " Type: " ++ x.2.DriveType),
    c.listItem (diskTitle n x.1 ++ " Controler: " ++ x.2.StorageController) ]

/-- Whether the bus path of a disk is something else than "unknown". -/
def Disk.resolved (d : Disk) : Bool :=
  decide (d.BusPath ≠ "unknown")

/-- The text shown for an active-connection state. -/
def statusString (status : Nat) : String :=
  if status = NmActiveConnectionStateActivated then "Connected" else "Unknown"

/-- The line shown for a device, when it shows one: all the reads made on the
device succeed and its active connection is not nil. -/
def deviceLine (c : Ctx) (d : Device) : Option String :=
  match d.GetPropertyInterface, d.GetPropertyActiveConnection with
  | .ok deviceInterface, .ok (some connection) =>
    match connection.GetPropertyState, connection.GetPropertyType with
    | .ok status, .ok proptype =>
      some (c.listItem (deviceInterface ++ " (" ++ proptype ++ "): " ++ statusString status))
    | _, _ => none
  | _, _ => none

/-- The error of the first read on a device that fails, when one does: the
reads are made in the order interface, active connection, state, type, and
the last two only on a connection that is not nil. -/
def deviceError (d : Device) : Option Error :=
  match d.GetPropertyInterface with
  | .error err => some err
  | .ok _ =>
  match d.GetPropertyActiveConnection with
  | .error err => some err
  | .ok none => none
  | .ok (some connection) =>
  match connection.GetPropertyState with
  | .error err => some err
  | .ok _ =>
  match connection.GetPropertyType with
  | .error err => some err
  | .ok _ => none

/-- A device on which a read fails. -/
def Device.readFails (d : Device) : Bool :=
  (deviceError d).isSome

/-- A device whose active connection is read and is not nil. -/
def Device.hasActiveConnection (d : Device) : Bool :=
  match d.GetPropertyActiveConnection with
  | .ok (some _) => true
  | _ => false

/-- What `networkInfo` reads when the connection manager hands out `devices`. -/
def NetworkEnv.ofDevices (devices : List Device) : NetworkEnv :=
  ⟨.ok ⟨.ok devices⟩⟩

/-- A device with interface `eth0` and no active connection. -/
def eth0 : Device :=
  ⟨.ok "eth0", .ok none⟩

/-- A device with interface `wlan0` and an active connection of type
802-11-wireless in the activated state. -/
def wlan0 : Device :=
  ⟨.ok "wlan0", .ok (some ⟨.ok NmActiveConnectionStateActivated, .ok "802-11-wireless"⟩)⟩

/-- A device whose interface name cannot be read. -/
def brokenDevice : Device :=
  ⟨.error "no such property", .ok none⟩

/-- The line shown for the processor `x.2` found at index `x.1` among `n`
processors. -/
def cpuLine (c : Ctx) (n : Nat) (x : Nat × Processor) : String :=
  c.listItem (cpuTitle n x.1 ++ ": " ++ x.2.Model ++ " (" ++ c.GOARCH ++ ")")

/-- The product name and the driver of a graphics card, when its device
information and the product of it are not nil. -/
def GraphicsCard.info (card : GraphicsCard) : Option (String × String) :=
  match card.DeviceInfo with
  | none => none
  | some DeviceInfo =>
    match DeviceInfo.Product with
    | none => none
    | some Product => some (Product.Name, DeviceInfo.Driver)

/-- The two lines shown for the graphics card `x.2` found at index `x.1`, `n`
being the number of processors; a card without device information has none. -/
def gpuLines (c : Ctx) (n : Nat) (x : Nat × GraphicsCard) : List String :=
  match x.2.info with
  | none => []
  | some info =>
    [ c.listItem (gpuTitle n x.1 ++ ": " ++ info.1),
      c.listItem (gpuTitle n x.1 ++ " Driver: " ++ info.2) ]

/-- Whether every graphics card has its device information and product (no
nil `DeviceInfo`, no nil `Product`). -/
def GPUInfo.usable (gpu : GPUInfo) : Bool :=
  gpu.GraphicsCards.all fun card => card.info.isSome

/-- Whether the pointers `gatherHwInfo` dereferences without a check are not
nil: the baseboard value, the device information of every graphics card and
the product of it. -/
def HwEnv.usable (env : HwEnv) : Bool :=
  env.Baseboard.1.isSome &&
    match env.GPU with
    | .ok gpu => gpu.usable
    | .error _ => true

/-- The graphics card with the given product name and driver. -/
def GraphicsCard.of (name driver : String) : GraphicsCard :=
  ⟨some ⟨some ⟨name⟩, driver⟩⟩

/-- A graphics card with its device information. -/
def radeon : GraphicsCard :=
  .of "Radeon" "amdgpu"

/-- A second graphics card with its device information. -/
def geforce : GraphicsCard :=
  .of "GeForce" "nvidia"

/-- A graphics card for which no PCI information was found. -/
def cardWithoutInfo : GraphicsCard :=
  ⟨none⟩

/-- The lines shown for a disk at the end of the hardware section: two for each
of its partitions mounted on "/". -/
def rootLines (c : Ctx) (disk : Disk) : List String :=
  (disk.Partitions.filter fun part => part.MountPoint = "/").flatMap fun part =>
    [ c.listItem ("Disk Type: " ++ disk.StorageController),
      c.listItem ("Filesystem: " ++ part.Type_) ]

/-- The four lines that open the hardware section after its heading. -/
def boardLines (c : Ctx) (baseboard : BaseboardInfo) (memory : MemoryInfo)
    (memoryStats : MemoryStats) : List String :=
  [ c.listItem ("Vendor: " ++ baseboard.Vendor),
    c.listItem ("Product: " ++ baseboard.Product),
    c.listItem ("Memory: " ++ c.FormatBytes (int64 memory.TotalPhysicalBytes) ++
      " (physical), " ++ c.FormatBytes (int64 memory.TotalUsableBytes) ++ " (usuable)"),
    c.listItem ("Swap: " ++ c.FormatBytes (int64 memoryStats.SwapTotal)) ]

/-- Renderers that leave the text as it is, byte counts in decimal, and the
architecture amd64. -/
def plain : Ctx :=
  ⟨id, id, toString, "amd64"⟩

/-- A machine with `cpus` as processors and `cards` as graphics cards, on which
every query succeeds. -/
def machine (cpus : List Processor) (cards : List GraphicsCard) : HwEnv where
  CPU := .ok ⟨cpus⟩
  GPU := .ok ⟨cards⟩
  Baseboard := (some ⟨"Framework", "Laptop"⟩, none)
  Memory := .ok ⟨0, 0⟩
  memGet := .ok ⟨0⟩
  Getwd := ("/", none)
  Statfs := fun _ => .ok ⟨0, 0⟩
  Block := .ok ⟨[]⟩

/-- The machine with one processor on which every query succeeds except the
block-device enumeration. -/
def blockFailure : HwEnv :=
  { machine [⟨"Ryzen"⟩] [] with Block := .error "no block devices" }

/-- The machine with one processor and one graphics card on which every query
succeeds except the block-device enumeration. -/
def blockFailureWithCard : HwEnv :=
  { machine [⟨"Ryzen"⟩] [radeon] with Block := .error "no block devices" }

/-- Whether a call returned a non-nil error. -/
def failed {α : Type} (r : Except Error α) : Bool :=
  match r with
  | .error _ => true
  | .ok _ => false

/-- The strings written to standard output by the probes themselves in a
trace, in order. -/
def texts (t : List Event) : List String :=
  t.filterMap fun e => match e with
    | .text s => some s
    | _ => none

/-- Six probe results of which the third is the first to fail. -/
def thirdFails (j : Fin 6) : ProbeOut :=
  if j.val < 2 then .quiet (.ok ["lines"]) else .quiet (.error "no block devices")

/-- The six headings, in the order of the report. -/
def headings (c : Ctx) : List String :=
  ["System", "Hardware", "Disk", "Desktop", "Status", "Network"].map c.listHeader

/-- A system on which every query of every probe succeeds. -/
def healthy : Env where
  os := ⟨.ok ultramarineRelease⟩
  hw := machine [⟨"Ryzen"⟩] []
  disk := ⟨.ok ⟨[]⟩⟩
  desktop := ⟨fun _ => ""⟩
  status := ⟨.ok "1h0m0s", .ok "6.9.0", 0, 0, 0⟩
  network := .ofDevices [eth0, wlan0]

/-! ## Properties -/

/-- The test `HasPrefix s p` holds exactly when `s` is `p` followed by some string. -/
theorem hasPrefix_iff (s p : String) : HasPrefix s p = true ↔ ∃ rest : String, s = p ++ rest := by
  unfold HasPrefix
  rw [List.isPrefixOf_iff_prefix]
  constructor
  · rintro ⟨t, ht⟩
    exact ⟨⟨t⟩, String.ext (by simp [← ht])⟩
  · rintro ⟨rest, rfl⟩
    exact ⟨rest.data, by simp⟩

/-- The three protocol names are pairwise distinct and `desktopProtocol` is
decided by which of the two variables is non-empty. -/
theorem desktopProtocol_cases (env : DesktopEnv) :
    (desktopProtocol env = "Wayland" ↔ env.Getenv "WAYLAND_DISPLAY" ≠ "") ∧
    (desktopProtocol env = "X11" ↔
      env.Getenv "WAYLAND_DISPLAY" = "" ∧ env.Getenv "DISPLAY" ≠ "") ∧
    (desktopProtocol env = "Unknown" ↔
      env.Getenv "WAYLAND_DISPLAY" = "" ∧ env.Getenv "DISPLAY" = "") := by
  unfold desktopProtocol
  by_cases hw : env.Getenv "WAYLAND_DISPLAY" = "" <;>
    by_cases hd : env.Getenv "DISPLAY" = "" <;>
    simp [hw, hd]

/-- C3: `gatherDesktop` never fails.  Whatever the environment holds, it
returns a nil error and exactly three entries: the heading Desktop, the Name
line carrying XDG_CURRENT_DESKTOP, and the Protocol line.  The protocol is one
of "Wayland", "X11", "Unknown": "Wayland" exactly when WAYLAND_DISPLAY is
non-empty (whatever DISPLAY is), "X11" exactly when only DISPLAY is non-empty,
"Unknown" exactly when both are empty. -/
theorem gatherDesktop_never_fails (c : Ctx) (env : DesktopEnv) :
    gatherDesktop c env =
        .ok [ c.listHeader "Desktop",
              c.listItem ("Name: " ++ env.Getenv "XDG_CURRENT_DESKTOP"),
              c.listItem ("Protocol: " ++ desktopProtocol env) ] ∧
      (desktopProtocol env = "Wayland" ∨ desktopProtocol env = "X11" ∨
        desktopProtocol env = "Unknown") ∧
      (desktopProtocol env = "Wayland" ↔ env.Getenv "WAYLAND_DISPLAY" ≠ "") ∧
      (desktopProtocol env = "X11" ↔
        env.Getenv "WAYLAND_DISPLAY" = "" ∧ env.Getenv "DISPLAY" ≠ "") ∧
      (desktopProtocol env = "Unknown" ↔
        env.Getenv "WAYLAND_DISPLAY" = "" ∧ env.Getenv "DISPLAY" = "") := by
  refine ⟨rfl, ?_, desktopProtocol_cases env⟩
  unfold desktopProtocol
  split_ifs <;> simp

/-- C4: for every release map that is read, `gatherOsInfo` returns the heading
System followed by exactly the four lines Name, Version, Variant, Atomic, in
that order, each wrapped by `listItem`; the flag is "True" exactly when the
VARIANT value is "Atomic" followed by something, and "False" otherwise, also
when VARIANT is absent.  It returns an error exactly when the release read
fails, and then that error.  For NAME=Ultramarine, VERSION=40, VARIANT=Atomic
Desktop the lines are Name: Ultramarine, Version: 40, Variant: Atomic Desktop,
Atomic: True. -/
theorem gatherOsInfo_spec (c : Ctx) :
    (∀ release : GoMap,
      gatherOsInfo c ⟨.ok release⟩ =
          .ok [ c.listHeader "System",
                c.listItem ("Name: " ++ release.index "NAME"),
                c.listItem ("Version: " ++ release.index "VERSION"),
                c.listItem ("Variant: " ++ release.index "VARIANT"),
                c.listItem ("Atomic: " ++ atomicValue release) ] ∧
        (atomicValue release = "True" ↔ ∃ rest, release.index "VARIANT" = "Atomic" ++ rest) ∧
        (atomicValue release = "False" ↔ ¬ ∃ rest, release.index "VARIANT" = "Atomic" ++ rest) ∧
        (release.lookup "VARIANT" = none → atomicValue release = "False")) ∧
      (∀ env : OsInfoEnv, ∀ e, gatherOsInfo c env = .error e ↔ env.osreleaseRead = .error e) ∧
      gatherOsInfo c ⟨.ok ultramarineRelease⟩ =
        .ok [ c.listHeader "System", c.listItem "Name: Ultramarine",
              c.listItem "Version: 40", c.listItem "Variant: Atomic Desktop",
              c.listItem "Atomic: True" ] := by
  refine ⟨fun release => ⟨rfl, ?_, ?_, ?_⟩, ?_, ?_⟩
  · rw [← hasPrefix_iff]
    unfold atomicValue
    split_ifs with h <;> simp [h]
  · rw [← hasPrefix_iff]
    unfold atomicValue
    split_ifs with h <;> simp [h]
  · intro h
    have : release.index "VARIANT" = "" := by simp [GoMap.index, h]
    unfold atomicValue
    rw [this]
    decide
  · intro env e
    unfold gatherOsInfo
    cases h : env.osreleaseRead <;> simp
  · rfl

/-- A loop that appends `g x` to its accumulator at each element builds the
accumulator followed by the concatenation of the `g x`. -/
theorem foldl_append_flatMap {α β : Type} (step : List β → α → List β) (g : α → List β)
    (h : ∀ acc x, step acc x = acc ++ g x) (xs : List α) (init : List β) :
    xs.foldl step init = init ++ xs.flatMap g := by
  induction xs generalizing init with
  | nil => simp
  | cons x xs ih => simp [List.foldl_cons, ih, h, List.append_assoc]

/-- The step of the disk loop appends nothing for an unresolved bus path and
the three lines of the disk otherwise. -/
theorem diskStep_eq (c : Ctx) (n : Nat) (acc : List String) (x : Nat × Disk) :
    diskStep c n acc x = acc ++ (if x.2.resolved then diskLines c n x else []) := by
  unfold diskStep Disk.resolved diskLines
  by_cases h : x.2.BusPath = "unknown" <;> simp [h, List.append_assoc]

/-- Skipping elements in a `flatMap` is filtering them out first. -/
theorem flatMap_ite_eq_filter {α β : Type} (p : α → Bool) (g : α → List β) (xs : List α) :
    xs.flatMap (fun x => if p x then g x else []) = (xs.filter p).flatMap g := by
  induction xs with
  | nil => rfl
  | cons x xs ih =>
    by_cases h : p x <;> simp [List.filter_cons, h, ih]

/-- Filtering an enumerated list on the elements keeps as many entries as
filtering the list itself. -/
theorem length_filter_enumFrom {α : Type} (p : α → Bool) (xs : List α) (k : Nat) :
    ((xs.enumFrom k).filter fun x => p x.2).length = (xs.filter p).length := by
  induction xs generalizing k with
  | nil => rfl
  | cons x xs ih =>
    by_cases h : p x <;> simp [List.filter_cons, h, ih]

/-- C8: `gatherDiskInfo` fails exactly when the disk enumeration fails (and
then with that error, never by a panic).  When the enumeration succeeds the
result is the heading Disk followed by the lines of the disks whose bus path
is not "unknown", in enumeration order, three consecutive lines per such disk
(model and name, drive type, storage controller) and none for the others, so
3*m lines for m such disks. -/
theorem gatherDiskInfo_spec (c : Ctx) :
    (∀ env : DiskEnv, ∀ e, gatherDiskInfo c env = .error e ↔ env.Block = .error e) ∧
    (∀ env : DiskEnv, gatherDiskInfo c env ≠ .panic) ∧
    (∀ disks : List Disk,
      gatherDiskInfo c ⟨.ok ⟨disks⟩⟩ =
          .ok (c.listHeader "Disk" ::
            ((disks.enum.filter fun x => x.2.resolved).flatMap (diskLines c disks.length))) ∧
        (∀ x, (diskLines c disks.length x).length = 3) ∧
        ((disks.enum.filter fun x => x.2.resolved).flatMap (diskLines c disks.length)).length =
          3 * (disks.filter Disk.resolved).length ∧
        (disks.enum.filter fun x => x.2.resolved).map Prod.snd = disks.filter Disk.resolved) := by
  refine ⟨?_, ?_, fun disks => ⟨?_, fun _ => rfl, ?_, ?_⟩⟩
  · intro env e
    unfold gatherDiskInfo
    cases h : env.Block <;> simp
  · intro env
    unfold gatherDiskInfo
    cases h : env.Block <;> simp
  · simp only [gatherDiskInfo]
    rw [foldl_append_flatMap _ _ (diskStep_eq c disks.length), flatMap_ite_eq_filter]
    rfl
  · rw [List.length_flatMap]
    have hconst : (List.length ∘ diskLines c disks.length) = fun _ => 3 := rfl
    rw [hconst, List.map_const', List.sum_replicate, smul_eq_mul, List.enum,
      length_filter_enumFrom Disk.resolved disks 0]
    omega
  · simp only [List.enum]
    generalize 0 = k
    induction disks generalizing k with
    | nil => rfl
    | cons d ds ih =>
      by_cases h : d.resolved <;> simp [List.filter_cons, h, ih]

/-- One iteration of the network loop appends the line of the device, when it
has one, and writes the error of its failing read, when it has one. -/
theorem networkStep_eq (c : Ctx) (s : NetLoop) (d : Device) :
    networkStep c s d =
      ⟨s.stdout ++ ((deviceError d).map (· ++ "\n")).toList,
       s.devicesInfo ++ (deviceLine c d).toList⟩ := by
  obtain ⟨i, a⟩ := d
  unfold networkStep deviceError deviceLine NetLoop.report statusString
  cases i with
  | error e => simp
  | ok i =>
    cases a with
    | error e => simp
    | ok a =>
      cases a with
      | none => simp
      | some conn =>
        obtain ⟨st, ty⟩ := conn
        cases st <;> cases ty <;> simp

/-- The network loop in closed form. -/
theorem networkLoop_eq (c : Ctx) (devices : List Device) (s : NetLoop) :
    devices.foldl (networkStep c) s =
      ⟨s.stdout ++ devices.filterMap (fun d => (deviceError d).map (· ++ "\n")),
       s.devicesInfo ++ devices.filterMap (deviceLine c)⟩ := by
  induction devices generalizing s with
  | nil => simp
  | cons d ds ih =>
    rw [List.foldl_cons, ih, networkStep_eq]
    cases h1 : deviceError d <;> cases h2 : deviceLine c d <;>
      simp [List.filterMap_cons, h1, h2]

/-- The probe `networkInfo` in closed form, once the device list is read. -/
theorem networkInfo_ofDevices (c : Ctx) (devices : List Device) :
    networkInfo c (.ofDevices devices) =
      ⟨devices.filterMap (fun d => (deviceError d).map (· ++ "\n")),
       .ok (c.listHeader "Network" :: devices.filterMap (deviceLine c))⟩ := by
  simp [networkInfo, NetworkEnv.ofDevices, networkLoop_eq]

/-- A device has a line exactly when no read on it fails and its active
connection is not nil. -/
theorem deviceLine_isSome (c : Ctx) (d : Device) :
    (deviceLine c d).isSome = (!d.readFails && d.hasActiveConnection) := by
  obtain ⟨i, a⟩ := d
  unfold deviceLine Device.readFails deviceError Device.hasActiveConnection
  cases i with
  | error e => simp
  | ok i =>
    cases a with
    | error e => simp
    | ok a =>
      cases a with
      | none => simp
      | some conn =>
        obtain ⟨st, ty⟩ := conn
        cases st <;> cases ty <;> simp

/-- C5: on a device list on which every property read succeeds, `networkInfo`
writes nothing itself and returns, with a nil error, the heading Network
followed by one line per device that has an active connection, in device
order, and no line for a device whose active connection is nil.  The line of
a device is "<interface> (<connection type>): <status>" wrapped by `listItem`,
the status being "Connected" exactly when the state is the activated state and
"Unknown" for every other state.  For the two devices eth0 (no active
connection) and wlan0 (activated, type 802-11-wireless) the only device line
is "wlan0 (802-11-wireless): Connected". -/
theorem networkInfo_all_reads_succeed (c : Ctx) (devices : List Device)
    (h : ∀ d ∈ devices, d.readFails = false) :
    networkInfo c (.ofDevices devices) =
        ⟨[], .ok (c.listHeader "Network" :: devices.filterMap (deviceLine c))⟩ ∧
      (devices.filterMap (deviceLine c)).length =
        (devices.filter Device.hasActiveConnection).length ∧
      (∀ d ∈ devices, deviceLine c d = none ↔ d.GetPropertyActiveConnection = .ok none) ∧
      (∀ d ∈ devices, d.hasActiveConnection = true →
        ∃ i st ty, d = ⟨.ok i, .ok (some ⟨.ok st, .ok ty⟩)⟩ ∧
          deviceLine c d = some (c.listItem (i ++ " (" ++ ty ++ "): " ++ statusString st))) ∧
      (∀ st, (statusString st = "Connected" ↔ st = NmActiveConnectionStateActivated) ∧
        (statusString st = "Unknown" ↔ st ≠ NmActiveConnectionStateActivated)) ∧
      networkInfo c (.ofDevices [eth0, wlan0]) =
        ⟨[], .ok [c.listHeader "Network", c.listItem "wlan0 (802-11-wireless): Connected"]⟩ := by
  have hsome : ∀ d ∈ devices, (deviceLine c d).isSome = d.hasActiveConnection := by
    intro d hd
    rw [deviceLine_isSome, h d hd]
    rfl
  refine ⟨?_, ?_, ?_, ?_, ?_, rfl⟩
  · rw [networkInfo_ofDevices]
    have : devices.filterMap (fun d => (deviceError d).map (· ++ "\n")) = [] := by
      rw [List.filterMap_eq_nil_iff]
      intro d hd
      have := h d hd
      simp only [Device.readFails] at this
      cases he : deviceError d <;> simp_all
    rw [this]
  · clear h
    induction devices with
    | nil => rfl
    | cons d ds ih =>
      have h1 := hsome d (List.mem_cons_self _ _)
      have h2 := ih fun x hx => hsome x (List.mem_cons_of_mem _ hx)
      cases hl : deviceLine c d <;> rw [hl] at h1 <;>
        simp [List.filterMap_cons, List.filter_cons, hl, ← h1, h2]
  · intro d hd
    have h1 := hsome d hd
    have h2 := h d hd
    obtain ⟨i, a⟩ := d
    cases i with
    | error e => simp [Device.readFails, deviceError] at h2
    | ok i =>
      cases a with
      | error e => simp [Device.readFails, deviceError] at h2
      | ok a =>
        cases a with
        | none => simp [deviceLine]
        | some conn =>
          simp only [Device.hasActiveConnection] at h1
          cases hl : deviceLine c ⟨.ok i, .ok (some conn)⟩ <;> simp_all
  · intro d hd hact
    have h2 := h d hd
    obtain ⟨i, a⟩ := d
    cases i with
    | error e => simp [Device.readFails, deviceError] at h2
    | ok i =>
      cases a with
      | error e => simp [Device.hasActiveConnection] at hact
      | ok a =>
        cases a with
        | none => simp [Device.hasActiveConnection] at hact
        | some conn =>
          obtain ⟨st, ty⟩ := conn
          cases st with
          | error e => simp [Device.readFails, deviceError] at h2
          | ok st =>
            cases ty with
            | error e => simp [Device.readFails, deviceError] at h2
            | ok ty => exact ⟨i, st, ty, rfl, rfl⟩
  · intro st
    unfold statusString
    by_cases hst : st = NmActiveConnectionStateActivated <;> simp [hst]

/-- Witness of C5 on the two devices eth0 and wlan0. -/
theorem networkInfo_all_reads_succeed_witness :
    (∀ d ∈ [eth0, wlan0], d.readFails = false) ∧
      networkInfo ⟨id, id, toString, "amd64"⟩ (.ofDevices [eth0, wlan0]) =
        ⟨[], .ok ["Network", "wlan0 (802-11-wireless): Connected"]⟩ :=
  ⟨by decide,
   (networkInfo_all_reads_succeed ⟨id, id, toString, "amd64"⟩ [eth0, wlan0] (by decide)).2.2.2.2.2⟩

/-- C10: a failed property read on a device never fails `networkInfo`.  Once
the device list is read the returned error is nil and the result is the
heading followed by the lines of the devices, in device order; a device with a
failed read has no line, and the result is the one obtained on the list
without the devices that have a failed read.  `networkInfo` returns an error
exactly when the connection manager cannot be created or the device list
cannot be read, it then returns that error and no lines, and it never panics. -/
theorem networkInfo_read_failure_skips_device (c : Ctx) :
    (∀ devices : List Device,
      (networkInfo c (.ofDevices devices)).result =
          .ok (c.listHeader "Network" :: devices.filterMap (deviceLine c)) ∧
        (networkInfo c (.ofDevices devices)).result =
          (networkInfo c (.ofDevices (devices.filter fun d => !d.readFails))).result) ∧
      (∀ d : Device, d.readFails = true → deviceLine c d = none) ∧
      (∀ env : NetworkEnv, ∀ e, (networkInfo c env).result = .error e ↔
        (env.NewNetworkManager = .error e ∨
          ∃ nm, env.NewNetworkManager = .ok nm ∧ nm.GetPropertyAllDevices = .error e)) ∧
      (∀ env : NetworkEnv, (networkInfo c env).result ≠ .panic) ∧
      (networkInfo c (.ofDevices [eth0, brokenDevice, wlan0])).result =
        .ok [c.listHeader "Network", c.listItem "wlan0 (802-11-wireless): Connected"] := by
  have hnone : ∀ d : Device, d.readFails = true → deviceLine c d = none := by
    intro d hd
    have := deviceLine_isSome c d
    rw [hd] at this
    simpa using this
  refine ⟨fun devices => ⟨by rw [networkInfo_ofDevices], ?_⟩, hnone, ?_, ?_, rfl⟩
  · have key : devices.filterMap (deviceLine c) =
        (devices.filter fun d => !d.readFails).filterMap (deviceLine c) := by
      induction devices with
      | nil => rfl
      | cons d ds ih =>
        by_cases hd : d.readFails = true
        · simp [List.filterMap_cons, List.filter_cons, hd, hnone d hd, ih]
        · simp only [Bool.not_eq_true] at hd
          simp [List.filterMap_cons, List.filter_cons, hd, ih]
    rw [networkInfo_ofDevices, networkInfo_ofDevices, key]
  · intro env e
    obtain ⟨m⟩ := env
    unfold networkInfo
    cases m with
    | error e1 => simp
    | ok nm =>
      obtain ⟨ds⟩ := nm
      cases ds <;> simp
  · intro env
    obtain ⟨m⟩ := env
    unfold networkInfo
    cases m with
    | error e1 => simp
    | ok nm =>
      obtain ⟨ds⟩ := nm
      cases ds <;> simp

/-- Concatenating singletons is mapping. -/
theorem flatMap_singleton_eq_map {α β : Type} (f : α → β) (xs : List α) :
    xs.flatMap (fun x => [f x]) = xs.map f := by
  induction xs with
  | nil => rfl
  | cons x xs ih => simp [ih]

/-- The processor loop appends one line. -/
theorem cpuStep_eq (c : Ctx) (n : Nat) (acc : List String) (x : Nat × Processor) :
    cpuStep c n acc x = acc ++ [cpuLine c n x] := rfl

/-- One iteration of the graphics-card loop panics on a card without usable
device information and appends the two lines of the card otherwise. -/
theorem gpuStep_eq (c : Ctx) (n : Nat) (acc : List String) (x : Nat × GraphicsCard) :
    gpuStep c n acc x = if x.2.info.isSome then some (acc ++ gpuLines c n x) else none := by
  obtain ⟨i, ⟨d⟩⟩ := x
  cases d with
  | none => rfl
  | some d =>
    obtain ⟨pr, dr⟩ := d
    cases pr with
    | none => rfl
    | some pr => simp [gpuStep, gpuLines, GraphicsCard.info, List.append_assoc]

/-- The graphics-card loop panics when a card has no usable device information
and appends the two lines of every card otherwise. -/
theorem gpuLoop_eq (c : Ctx) (n : Nat) (xs : List (Nat × GraphicsCard)) (acc : List String) :
    xs.foldlM (gpuStep c n) acc =
      if xs.all (fun x => x.2.info.isSome) then some (acc ++ xs.flatMap (gpuLines c n))
      else none := by
  induction xs generalizing acc with
  | nil => simp
  | cons x xs ih =>
    rw [List.foldlM_cons, gpuStep_eq]
    cases hx : x.2.info.isSome
    · simp [hx]
    · simp only [if_true, Option.some_bind, Option.bind_eq_bind, ih, List.all_cons, hx,
        Bool.true_and, List.flatMap_cons, List.append_assoc]

/-- Numbering the cards does not change whether they all have their device
information. -/
theorem all_enumFrom_usable (cards : List GraphicsCard) (k : Nat) :
    (cards.enumFrom k).all (fun x => x.2.info.isSome) =
      cards.all fun card => card.info.isSome := by
  induction cards generalizing k with
  | nil => rfl
  | cons card cards ih => simp [ih]

/-- The partition loop of one disk appends the root lines of the disk. -/
theorem rootStep_eq (c : Ctx) (acc : List String) (disk : Disk) :
    rootStep c acc disk = acc ++ rootLines c disk := by
  unfold rootStep rootLines
  rw [foldl_append_flatMap (partStep c disk)
    (fun part => if part.MountPoint = "/" then
      [ c.listItem ("Disk Type: " ++ disk.StorageController),
        c.listItem ("Filesystem: " ++ part.Type_) ] else [])]
  · congr 1
    rw [← flatMap_ite_eq_filter (fun part : Partition => decide (part.MountPoint = "/"))]
    simp only [decide_eq_true_eq]
  · intro acc part
    unfold partStep
    by_cases h : part.MountPoint = "/" <;> simp [h, List.append_assoc]

/-- The hardware section when every enumeration succeeds and the baseboard
value is usable: heading, the four board lines, one line per processor, two
lines per graphics card, the free space, the lines of the root filesystem. -/
theorem gatherHwInfo_ok (c : Ctx) (env : HwEnv) (cpu : CPUInfo) (gpu : GPUInfo)
    (baseboard : BaseboardInfo) (memory : MemoryInfo) (memoryStats : MemoryStats)
    (block : BlockInfo) (h1 : env.CPU = .ok cpu) (h2 : env.GPU = .ok gpu)
    (h3 : env.Baseboard.1 = some baseboard) (h4 : env.Memory = .ok memory)
    (h5 : env.memGet = .ok memoryStats) (h6 : env.Block = .ok block)
    (h7 : gpu.usable = true) :
    (gatherHwInfo c env).result =
      .ok (c.listHeader "Hardware" :: boardLines c baseboard memory memoryStats ++
        cpu.Processors.enum.map (cpuLine c cpu.Processors.length) ++
        gpu.GraphicsCards.enum.flatMap (gpuLines c cpu.Processors.length) ++
        [c.listItem ("Disk Free: " ++ c.FormatBytes (diskFree env))] ++
        block.Disks.flatMap (rootLines c)) := by
  have hall : gpu.GraphicsCards.enum.all (fun x => x.2.info.isSome) = true := by
    rw [List.enum, all_enumFrom_usable]
    exact h7
  unfold gatherHwInfo
  simp only [h1, h2, h3, h4, h5, h6, gpuLoop_eq, hall, if_true]
  rw [foldl_append_flatMap _ _ (rootStep_eq c), foldl_append_flatMap _ _ (cpuStep_eq c _)]
  simp [boardLines, flatMap_singleton_eq_map, List.append_assoc]

/-- The hardware probe panics in the graphics-card loop when the queries made
before the loop succeed and a card has no device information. -/
theorem gatherHwInfo_card_panic (c : Ctx) (env : HwEnv) (cpu : CPUInfo) (gpu : GPUInfo)
    (baseboard : BaseboardInfo) (memory : MemoryInfo) (memoryStats : MemoryStats)
    (h1 : env.CPU = .ok cpu) (h2 : env.GPU = .ok gpu)
    (h3 : env.Baseboard.1 = some baseboard) (h4 : env.Memory = .ok memory)
    (h5 : env.memGet = .ok memoryStats) (h7 : gpu.usable = false) :
    (gatherHwInfo c env).result = .panic := by
  have hall : gpu.GraphicsCards.enum.all (fun x => x.2.info.isSome) = false := by
    rw [List.enum, all_enumFrom_usable]
    exact h7
  unfold gatherHwInfo
  simp only [h1, h2, h3, h4, h5, gpuLoop_eq, hall]
  rfl

/-- C6, the code at two processors: the suffix that `string(i)` appends to the
title is the character with code point `i`, not the decimal digits of `i`, so
the two titles are "CPU\x00" and "CPU\x01" instead of "CPU0" and "CPU1"; with
one processor the title is "CPU". -/
theorem gatherHwInfo_two_cpus_titles :
    (gatherHwInfo plain (machine [⟨"Ryzen"⟩, ⟨"Ryzen"⟩] [])).result =
        .ok [ "Hardware", "Vendor: Framework", "Product: Laptop",
              "Memory: 0 (physical), 0 (usuable)", "Swap: 0",
              "CPU\x00: Ryzen (amd64)", "CPU\x01: Ryzen (amd64)", "Disk Free: 0" ] ∧
      cpuTitle 2 0 = "CPU\x00" ∧ cpuTitle 2 1 = "CPU\x01" ∧
      cpuTitle 2 0 ≠ "CPU0" ∧ cpuTitle 2 1 ≠ "CPU1" ∧
      (gatherHwInfo plain (machine [⟨"Ryzen"⟩] [])).result =
        .ok [ "Hardware", "Vendor: Framework", "Product: Laptop",
              "Memory: 0 (physical), 0 (usuable)", "Swap: 0",
              "CPU: Ryzen (amd64)", "Disk Free: 0" ] := by
  refine ⟨by rfl, by decide, by decide, by decide, by decide, by rfl⟩

/-- A title with the suffix of `string(i)` is not the bare title. -/
theorem append_goString_ne (t : String) (i : Nat) : t ++ goString i ≠ t := by
  intro h
  have := congrArg String.length h
  simp [goString, String.length_append] at this

/-- The graphics-card loop in closed form when every card has its device
information. -/
theorem gpuLoop_usable (c : Ctx) (n : Nat) (gpu : GPUInfo) (h : gpu.usable = true)
    (acc : List String) :
    gpu.GraphicsCards.enum.foldlM (gpuStep c n) acc =
      some (acc ++ gpu.GraphicsCards.enum.flatMap (gpuLines c n)) := by
  rw [gpuLoop_eq, List.enum, all_enumFrom_usable]
  simp only [GPUInfo.usable] at h
  simp [h]

/-- C9: the titles of the graphics-card lines depend on the number of
processors and not on the number of cards.  When the queries succeed and every
card has its device information, the lines of the cards in the hardware
section are those of `gpuLines` at the number of processors, two lines per
card with the title of its index (and when a card has no device information
or product, the probe panics at line 188 and shows no line at all); the title
differs from "GPU" exactly when there is more than one processor, the suffix
being `string(i)` for the card at index `i`; with at most one processor every
card has the two lines titled "GPU" and "GPU Driver" whatever its index, and
with two processors a single card has the suffixed title.  One processor and
two cards give twice the titles "GPU" and "GPU Driver"; two processors and one
card give "GPU\x00" and "GPU\x00 Driver". -/
theorem gpuTitle_follows_processor_count (c : Ctx) :
    (∀ (cpu : CPUInfo) (gpu : GPUInfo) (baseboard : BaseboardInfo) (berr : Option Error)
        (memory : MemoryInfo) (memoryStats : MemoryStats) (wd : String × Option Error)
        (statfs : String → Except Error Statfs_t) (block : BlockInfo),
      (gpu.usable = true →
        (gatherHwInfo c ⟨.ok cpu, .ok gpu, (some baseboard, berr), .ok memory, .ok memoryStats,
            wd, statfs, .ok block⟩).result =
          .ok (c.listHeader "Hardware" :: boardLines c baseboard memory memoryStats ++
            cpu.Processors.enum.map (cpuLine c cpu.Processors.length) ++
            gpu.GraphicsCards.enum.flatMap (gpuLines c cpu.Processors.length) ++
            [c.listItem ("Disk Free: " ++ c.FormatBytes (diskFree
              ⟨.ok cpu, .ok gpu, (some baseboard, berr), .ok memory, .ok memoryStats,
                wd, statfs, .ok block⟩))] ++
            block.Disks.flatMap (rootLines c))) ∧
      (gpu.usable = false →
        (gatherHwInfo c ⟨.ok cpu, .ok gpu, (some baseboard, berr), .ok memory, .ok memoryStats,
            wd, statfs, .ok block⟩).result = .panic)) ∧
      (∀ n i, gpuTitle n i ≠ "GPU" ↔ 1 < n) ∧
      (∀ n i, 1 < n → gpuTitle n i = "GPU" ++ goString i) ∧
      (∀ n i (name driver : String),
        gpuLines c n (i, .of name driver) =
          [ c.listItem (gpuTitle n i ++ ": " ++ name),
            c.listItem (gpuTitle n i ++ " Driver: " ++ driver) ]) ∧
      (∀ n (cards : List GraphicsCard), n ≤ 1 →
        cards.enum.flatMap (gpuLines c n) = cards.flatMap fun card =>
          match card.info with
          | none => []
          | some info =>
            [ c.listItem ("GPU: " ++ info.1),
              c.listItem ("GPU Driver: " ++ info.2) ]) ∧
      (∀ n (name driver : String), 1 < n →
        [GraphicsCard.of name driver].enum.flatMap (gpuLines c n) =
          [ c.listItem ("GPU\x00: " ++ name),
            c.listItem ("GPU\x00 Driver: " ++ driver) ]) ∧
      (gatherHwInfo plain (machine [⟨"Ryzen"⟩] [radeon, geforce])).result =
        .ok [ "Hardware", "Vendor: Framework", "Product: Laptop",
              "Memory: 0 (physical), 0 (usuable)", "Swap: 0", "CPU: Ryzen (amd64)",
              "GPU: Radeon", "GPU Driver: amdgpu", "GPU: GeForce", "GPU Driver: nvidia",
              "Disk Free: 0" ] ∧
      (gatherHwInfo plain (machine [⟨"Ryzen"⟩, ⟨"Ryzen"⟩] [radeon])).result =
        .ok [ "Hardware", "Vendor: Framework", "Product: Laptop",
              "Memory: 0 (physical), 0 (usuable)", "Swap: 0", "CPU\x00: Ryzen (amd64)",
              "CPU\x01: Ryzen (amd64)", "GPU\x00: Radeon", "GPU\x00 Driver: amdgpu",
              "Disk Free: 0" ] := by
  refine ⟨?_, ?_, ?_, fun _ _ _ _ => rfl, ?_, ?_, by rfl, by rfl⟩
  · intro cpu gpu baseboard berr memory memoryStats wd statfs block
    exact ⟨fun h => gatherHwInfo_ok c _ cpu gpu baseboard memory memoryStats block
        rfl rfl rfl rfl rfl rfl h,
      fun h => gatherHwInfo_card_panic c _ cpu gpu baseboard memory memoryStats
        rfl rfl rfl rfl rfl h⟩
  · intro n i
    unfold gpuTitle
    by_cases h : n > 1
    · simpa [h] using append_goString_ne "GPU" i
    · simp [h]
  · intro n i h
    simp [gpuTitle, h]
  · intro n cards h
    have hn : ¬ n > 1 := by omega
    simp only [List.enum]
    generalize 0 = k
    induction cards generalizing k with
    | nil => rfl
    | cons card cards ih =>
      cases hi : card.info <;> simp [gpuLines, gpuTitle, hn, ih, hi]
  · intro n name driver h
    simp [List.enum, gpuLines, gpuTitle, GraphicsCard.info, GraphicsCard.of, h]
    constructor <;> rfl

/-- C7 as stated fails: on the machine where only the block-device enumeration
fails, `gatherHwInfo` returns that error although the processor, graphics-card
and memory enumerations all succeed. -/
theorem gatherHwInfo_block_failure_fails :
    (gatherHwInfo plain blockFailure).result = .error "no block devices" ∧
      ¬ ((∃ e, (gatherHwInfo plain blockFailure).result = .error e) ↔
          (failed blockFailure.CPU = true ∨ failed blockFailure.GPU = true ∨
            failed blockFailure.Memory = true ∨ failed blockFailure.memGet = true)) := by
  have h : (gatherHwInfo plain blockFailure).result = .error "no block devices" := rfl
  refine ⟨h, ?_⟩
  rw [h]
  intro hiff
  have := hiff.mp ⟨_, rfl⟩
  revert this
  decide

/-- C7, amended: when the pointers the probe dereferences without a check are
usable (the baseboard value, the device information of every graphics card
and its product are not nil), `gatherHwInfo` returns an error exactly when the processor
enumeration, the graphics-card enumeration, a memory enumeration call
(`ghw.Memory` or `mem.Get`) or the block-device enumeration fails, the error
being the one of such a call, and it returns its lines exactly when none of
the five fails.  What the baseboard query, `os.Getwd` and `unix.Statfs` report
as an error changes neither: the return value is the same whatever the first
two report, and it is not an error when `unix.Statfs` fails on every path. -/
theorem gatherHwInfo_error_iff (c : Ctx) (env : HwEnv) (hu : env.usable = true) :
    ((∃ e, (gatherHwInfo c env).result = .error e) ↔
        (failed env.CPU = true ∨ failed env.GPU = true ∨ failed env.Memory = true ∨
          failed env.memGet = true ∨ failed env.Block = true)) ∧
      (∀ e, (gatherHwInfo c env).result = .error e →
        env.CPU = .error e ∨ env.GPU = .error e ∨ env.Memory = .error e ∨
          env.memGet = .error e ∨ env.Block = .error e) ∧
      ((∃ lines, (gatherHwInfo c env).result = .ok lines) ↔
        (failed env.CPU = false ∧ failed env.GPU = false ∧ failed env.Memory = false ∧
          failed env.memGet = false ∧ failed env.Block = false)) ∧
      (∀ (berr wderr : Option Error),
        (gatherHwInfo c { env with Baseboard := (env.Baseboard.1, berr),
                                   Getwd := (env.Getwd.1, wderr) }).result =
          (gatherHwInfo c env).result) ∧
      ((∃ e, (gatherHwInfo c { env with Statfs := fun _ => .error "statfs" }).result = .error e) ↔
        ∃ e, (gatherHwInfo c env).result = .error e) := by
  obtain ⟨cpu, gpu, bb, mem, mg, wd, sf, blk⟩ := env
  obtain ⟨bptr, berr0⟩ := bb
  cases bptr with
  | none => simp [HwEnv.usable] at hu
  | some baseboard =>
    cases gpu with
    | error e0 =>
      cases cpu <;> cases mem <;> cases mg <;> cases blk <;>
        simp [gatherHwInfo, failed, diskFree]
    | ok gpu =>
      have hg : gpu.usable = true := by simpa [HwEnv.usable] using hu
      have hloop := fun n acc => gpuLoop_usable c n gpu hg acc
      cases cpu <;> cases mem <;> cases mg <;> cases blk <;>
        simp [gatherHwInfo, failed, diskFree, hloop]

/-- Witness of the amended C7 on the machine with one graphics card where only
the block-device enumeration fails. -/
theorem gatherHwInfo_error_iff_witness :
    blockFailureWithCard.usable = true ∧
      ((∃ e, (gatherHwInfo plain blockFailureWithCard).result = .error e) ↔
        (failed blockFailureWithCard.CPU = true ∨ failed blockFailureWithCard.GPU = true ∨
          failed blockFailureWithCard.Memory = true ∨ failed blockFailureWithCard.memGet = true ∨
          failed blockFailureWithCard.Block = true)) :=
  ⟨rfl, (gatherHwInfo_error_iff plain blockFailureWithCard rfl).1⟩

/-- A card without device information makes the probe panic before the
block-device enumeration is reached, whatever that enumeration would return. -/
theorem gatherHwInfo_cardWithoutInfo_panics :
    (gatherHwInfo plain (machine [⟨"Ryzen"⟩] [cardWithoutInfo])).result = .panic ∧
      (gatherHwInfo plain { machine [⟨"Ryzen"⟩] [radeon, cardWithoutInfo] with
        Block := .error "no block devices" }).result = .panic := by
  constructor <;> rfl

/-- The trace of a step of `status` whose probe returns lines. -/
theorem statusStep_ok (name : String) (p : ProbeOut) (rest : Run) (lines : List String)
    (h : p.result = .ok lines) :
    statusStep name p rest =
      ⟨rest.result, Event.call name :: p.stdout.map Event.text ++
        Event.printSection lines :: rest.trace⟩ := by
  simp [statusStep, h]

/-- The trace of a step of `status` whose probe returns an error. -/
theorem statusStep_error (name : String) (p : ProbeOut) (rest : Run) (e : Error)
    (h : p.result = .error e) :
    statusStep name p rest = ⟨.error e, Event.call name :: p.stdout.map Event.text⟩ := by
  simp [statusStep, h]

/-- The calls of a trace that starts with a call. -/
theorem calls_cons_call (n : String) (t : List Event) : calls (.call n :: t) = n :: calls t := rfl

/-- The calls of a trace are those of its parts. -/
theorem calls_append (t u : List Event) : calls (t ++ u) = calls t ++ calls u := by
  simp [calls]

/-- What a probe writes holds no call. -/
theorem calls_text (l : List String) : calls (l.map Event.text) = [] := by
  induction l with
  | nil => rfl
  | cons x xs ih => simp [calls]

/-- Printing a section is not a call. -/
theorem calls_cons_section (l : List String) (t : List Event) :
    calls (.printSection l :: t) = calls t := rfl

/-- A call prints no section. -/
theorem sections_cons_call (n : String) (t : List Event) : sections (.call n :: t) = sections t :=
  rfl

/-- The sections of a trace are those of its parts. -/
theorem sections_append (t u : List Event) : sections (t ++ u) = sections t ++ sections u := by
  simp [sections]

/-- What a probe writes holds no section. -/
theorem sections_text (l : List String) : sections (l.map Event.text) = [] := by
  induction l with
  | nil => rfl
  | cons x xs ih => simp [sections]

/-- The sections of a trace that starts with a section. -/
theorem sections_cons_section (l : List String) (t : List Event) :
    sections (.printSection l :: t) = l :: sections t := rfl

/-- A call writes nothing. -/
theorem texts_cons_call (n : String) (t : List Event) : texts (.call n :: t) = texts t := rfl

/-- The texts of a trace are those of its parts. -/
theorem texts_append (t u : List Event) : texts (t ++ u) = texts t ++ texts u := by
  simp [texts]

/-- What a probe writes is found again in the trace. -/
theorem texts_text (l : List String) : texts (l.map Event.text) = l := by
  induction l with
  | nil => rfl
  | cons x xs ih => simpa [texts] using ih

/-- A section is not a text written by a probe. -/
theorem texts_cons_section (l : List String) (t : List Event) :
    texts (.printSection l :: t) = texts t := rfl

/-- The list of the six values of a function on `Fin 6`. -/
theorem ofFn_six {α : Type} (f : Fin 6 → α) :
    List.ofFn f = [f 0, f 1, f 2, f 3, f 4, f 5] := by
  simp only [List.ofFn_succ, List.ofFn_zero]
  rfl

/-- C1: fail-fast in `status`.  Let the six probes hand back results, in the
order gatherOsInfo, gatherHwInfo, gatherDiskInfo, gatherDesktop, statusInfo,
networkInfo.  If the probes before the k-th return lines and the k-th returns
the error e, whatever the later ones would do, then `status` returns exactly
e, the probes it has called are the first k in order (none of the later
ones), the sections it has printed are the lines of the probes before the
k-th, in order, and nothing else reaches standard output than what the first
k probes write themselves. -/
theorem status_fail_fast (p : Fin 6 → ProbeOut) (k : Fin 6) (e : Error)
    (lines : Fin 6 → List String)
    (hok : ∀ j, j < k → (p j).result = .ok (lines j))
    (hk : (p k).result = .error e) :
    (statusOf (p 0) (p 1) (p 2) (p 3) (p 4) (p 5)).result = .error e ∧
      calls (statusOf (p 0) (p 1) (p 2) (p 3) (p 4) (p 5)).trace = probeOrder.take (k.val + 1) ∧
      sections (statusOf (p 0) (p 1) (p 2) (p 3) (p 4) (p 5)).trace =
        (List.ofFn lines).take k.val ∧
      texts (statusOf (p 0) (p 1) (p 2) (p 3) (p 4) (p 5)).trace =
        ((List.ofFn p).take (k.val + 1)).flatMap ProbeOut.stdout := by
  have h0 := hok 0
  have h1 := hok 1
  have h2 := hok 2
  have h3 := hok 3
  have h4 := hok 4
  unfold statusOf
  fin_cases k
  · have hk0 : (p 0).result = .error e := hk
    rw [statusStep_error _ _ _ e hk0, ofFn_six, ofFn_six]
    simp [calls_cons_call, calls_append, calls_text, calls_cons_section, sections_cons_call,
      sections_append, sections_text, sections_cons_section, texts_cons_call, texts_append,
      texts_text, texts_cons_section, probeOrder]
  · have hk1 : (p 1).result = .error e := hk
    rw [statusStep_ok _ _ _ _ (h0 (by decide)),
      statusStep_error _ _ _ e hk1, ofFn_six, ofFn_six]
    simp [calls_cons_call, calls_append, calls_text, calls_cons_section, sections_cons_call,
      sections_append, sections_text, sections_cons_section, texts_cons_call, texts_append,
      texts_text, texts_cons_section, probeOrder]
  · have hk2 : (p 2).result = .error e := hk
    rw [statusStep_ok _ _ _ _ (h0 (by decide)),
      statusStep_ok _ _ _ _ (h1 (by decide)),
      statusStep_error _ _ _ e hk2, ofFn_six, ofFn_six]
    simp [calls_cons_call, calls_append, calls_text, calls_cons_section, sections_cons_call,
      sections_append, sections_text, sections_cons_section, texts_cons_call, texts_append,
      texts_text, texts_cons_section, probeOrder]
  · have hk3 : (p 3).result = .error e := hk
    rw [statusStep_ok _ _ _ _ (h0 (by decide)),
      statusStep_ok _ _ _ _ (h1 (by decide)),
      statusStep_ok _ _ _ _ (h2 (by decide)),
      statusStep_error _ _ _ e hk3, ofFn_six, ofFn_six]
    simp [calls_cons_call, calls_append, calls_text, calls_cons_section, sections_cons_call,
      sections_append, sections_text, sections_cons_section, texts_cons_call, texts_append,
      texts_text, texts_cons_section, probeOrder]
  · have hk4 : (p 4).result = .error e := hk
    rw [statusStep_ok _ _ _ _ (h0 (by decide)),
      statusStep_ok _ _ _ _ (h1 (by decide)),
      statusStep_ok _ _ _ _ (h2 (by decide)),
      statusStep_ok _ _ _ _ (h3 (by decide)),
      statusStep_error _ _ _ e hk4, ofFn_six, ofFn_six]
    simp [calls_cons_call, calls_append, calls_text, calls_cons_section, sections_cons_call,
      sections_append, sections_text, sections_cons_section, texts_cons_call, texts_append,
      texts_text, texts_cons_section, probeOrder]
  · have hk5 : (p 5).result = .error e := hk
    rw [statusStep_ok _ _ _ _ (h0 (by decide)),
      statusStep_ok _ _ _ _ (h1 (by decide)),
      statusStep_ok _ _ _ _ (h2 (by decide)),
      statusStep_ok _ _ _ _ (h3 (by decide)),
      statusStep_ok _ _ _ _ (h4 (by decide)),
      statusStep_error _ _ _ e hk5, ofFn_six, ofFn_six]
    simp [calls_cons_call, calls_append, calls_text, calls_cons_section, sections_cons_call,
      sections_append, sections_text, sections_cons_section, texts_cons_call, texts_append,
      texts_text, texts_cons_section, probeOrder]

/-- Witness of C1: the third probe is the first to fail. -/
theorem status_fail_fast_witness :
    (∀ j : Fin 6, j < 2 → (thirdFails j).result = .ok ["lines"]) ∧
      (thirdFails 2).result = .error "no block devices" ∧
      (statusOf (thirdFails 0) (thirdFails 1) (thirdFails 2) (thirdFails 3) (thirdFails 4)
        (thirdFails 5)).result = .error "no block devices" ∧
      calls (statusOf (thirdFails 0) (thirdFails 1) (thirdFails 2) (thirdFails 3) (thirdFails 4)
        (thirdFails 5)).trace = ["gatherOsInfo", "gatherHwInfo", "gatherDiskInfo"] ∧
      sections (statusOf (thirdFails 0) (thirdFails 1) (thirdFails 2) (thirdFails 3)
        (thirdFails 4) (thirdFails 5)).trace = [["lines"], ["lines"]] ∧
      texts (statusOf (thirdFails 0) (thirdFails 1) (thirdFails 2) (thirdFails 3)
        (thirdFails 4) (thirdFails 5)).trace = [] :=
  ⟨by decide, by decide,
    status_fail_fast thirdFails 2 "no block devices" (fun _ => ["lines"]) (by decide) (by decide)⟩

/-- The first entry of what `gatherOsInfo` returns is the heading System. -/
theorem gatherOsInfo_head (c : Ctx) (env : OsInfoEnv) (l : List String)
    (h : gatherOsInfo c env = .ok l) : l.head? = some (c.listHeader "System") := by
  unfold gatherOsInfo at h
  cases hr : env.osreleaseRead <;> rw [hr] at h <;> simp at h
  simp [← h]

/-- The first entry of what `gatherHwInfo` returns is the heading Hardware. -/
theorem gatherHwInfo_head (c : Ctx) (env : HwEnv) (l : List String)
    (h : (gatherHwInfo c env).result = .ok l) : l.head? = some (c.listHeader "Hardware") := by
  obtain ⟨cpu, gpu, bb, mem, mg, wd, sf, blk⟩ := env
  obtain ⟨bptr, berr⟩ := bb
  cases cpu <;> cases gpu <;> cases bptr <;> cases mem <;> cases mg <;> cases blk <;>
    try (simp [gatherHwInfo] at h; done)
  all_goals
    rename_i cpu gpu baseboard memory memoryStats block
    cases hg : gpu.usable
  · rw [gatherHwInfo_card_panic c _ _ _ _ _ _ rfl rfl rfl rfl rfl hg] at h
    simp at h
  · have hloop := fun n acc => gpuLoop_usable c n gpu hg acc
    simp [gatherHwInfo, hloop] at h
  · rw [gatherHwInfo_card_panic c _ _ _ _ _ _ rfl rfl rfl rfl rfl hg] at h
    simp at h
  · rw [gatherHwInfo_ok c _ _ _ _ _ _ _ rfl rfl rfl rfl rfl rfl hg] at h
    simp at h
    simp [← h]

/-- The first entry of what `gatherDiskInfo` returns is the heading Disk. -/
theorem gatherDiskInfo_head (c : Ctx) (env : DiskEnv) (l : List String)
    (h : gatherDiskInfo c env = .ok l) : l.head? = some (c.listHeader "Disk") := by
  unfold gatherDiskInfo at h
  cases hr : env.Block <;> rw [hr] at h <;> simp at h
  rw [foldl_append_flatMap _ _ (diskStep_eq c _)] at h
  simp [← h]

/-- The first entry of what `statusInfo` returns is the heading Status. -/
theorem statusInfo_head (c : Ctx) (env : StatusEnv) (l : List String)
    (h : statusInfo c env = .ok l) : l.head? = some (c.listHeader "Status") := by
  unfold statusInfo at h
  cases hu : env.Uptime <;> cases hn : env.Uname <;> rw [hu] at h <;> try rw [hn] at h
  all_goals simp at h
  simp [← h]

/-- The first entry of what `networkInfo` returns is the heading Network. -/
theorem networkInfo_head (c : Ctx) (env : NetworkEnv) (l : List String)
    (h : (networkInfo c env).result = .ok l) : l.head? = some (c.listHeader "Network") := by
  obtain ⟨m⟩ := env
  cases m with
  | error e => simp [networkInfo] at h
  | ok nm =>
    obtain ⟨ds⟩ := nm
    cases ds with
    | error e => simp [networkInfo] at h
    | ok ds =>
      have := networkInfo_ofDevices c ds
      simp only [NetworkEnv.ofDevices] at this
      rw [this] at h
      simp at h
      simp [← h]

/-- The run of `status` when the six probes return lines. -/
theorem statusOf_all_ok (p1 p2 p3 p4 p5 p6 : ProbeOut) (l1 l2 l3 l4 l5 l6 : List String)
    (h1 : p1.result = .ok l1) (h2 : p2.result = .ok l2) (h3 : p3.result = .ok l3)
    (h4 : p4.result = .ok l4) (h5 : p5.result = .ok l5) (h6 : p6.result = .ok l6) :
    (statusOf p1 p2 p3 p4 p5 p6).result = .ok () ∧
      calls (statusOf p1 p2 p3 p4 p5 p6).trace = probeOrder ∧
      sections (statusOf p1 p2 p3 p4 p5 p6).trace = [l1, l2, l3, l4, l5, l6] := by
  unfold statusOf
  rw [statusStep_ok _ _ _ _ h1, statusStep_ok _ _ _ _ h2, statusStep_ok _ _ _ _ h3,
    statusStep_ok _ _ _ _ h4, statusStep_ok _ _ _ _ h5, statusStep_ok _ _ _ _ h6]
  simp [calls_cons_call, calls_append, calls_text, calls_cons_section, sections_cons_call,
    sections_append, sections_text, sections_cons_section, probeOrder]
  constructor <;> rfl

/-- C2: when the six probes all return lines, `status` returns a nil error,
has called the six probes in order, and has printed exactly six sections, the
lines of each probe as the probe returned them, in the order of the probes;
the first entries of the six sections are the headings System, Hardware, Disk,
Desktop, Status, Network in this order; and any run on which the probes return
the same lines prints the same sequence of sections. -/
theorem status_all_succeed (c : Ctx) (env : Env) (l1 l2 l3 l4 l5 l6 : List String)
    (h1 : gatherOsInfo c env.os = .ok l1) (h2 : (gatherHwInfo c env.hw).result = .ok l2)
    (h3 : gatherDiskInfo c env.disk = .ok l3) (h4 : gatherDesktop c env.desktop = .ok l4)
    (h5 : statusInfo c env.status = .ok l5)
    (h6 : (networkInfo c env.network).result = .ok l6) :
    (status c env).result = .ok () ∧
      calls (status c env).trace = probeOrder ∧
      sections (status c env).trace = [l1, l2, l3, l4, l5, l6] ∧
      (sections (status c env).trace).map List.head? = (headings c).map some ∧
      (∀ env2 : Env, gatherOsInfo c env2.os = .ok l1 →
        (gatherHwInfo c env2.hw).result = .ok l2 → gatherDiskInfo c env2.disk = .ok l3 →
        gatherDesktop c env2.desktop = .ok l4 → statusInfo c env2.status = .ok l5 →
        (networkInfo c env2.network).result = .ok l6 →
        sections (status c env2).trace = sections (status c env).trace) := by
  have key := statusOf_all_ok (.quiet (gatherOsInfo c env.os)) (gatherHwInfo c env.hw)
    (.quiet (gatherDiskInfo c env.disk)) (.quiet (gatherDesktop c env.desktop))
    (.quiet (statusInfo c env.status)) (networkInfo c env.network) l1 l2 l3 l4 l5 l6
    h1 h2 h3 h4 h5 h6
  refine ⟨key.1, key.2.1, key.2.2, ?_, ?_⟩
  · have e4 : l4.head? = some (c.listHeader "Desktop") := by
      simp only [gatherDesktop, GoResult.ok.injEq] at h4
      simp [← h4]
    unfold status
    rw [key.2.2]
    simp [headings, gatherOsInfo_head c _ _ h1, gatherHwInfo_head c _ _ h2,
      gatherDiskInfo_head c _ _ h3, e4, statusInfo_head c _ _ h5, networkInfo_head c _ _ h6]
  · intro env2 g1 g2 g3 g4 g5 g6
    have key2 := statusOf_all_ok (.quiet (gatherOsInfo c env2.os)) (gatherHwInfo c env2.hw)
      (.quiet (gatherDiskInfo c env2.disk)) (.quiet (gatherDesktop c env2.desktop))
      (.quiet (statusInfo c env2.status)) (networkInfo c env2.network) l1 l2 l3 l4 l5 l6
      g1 g2 g3 g4 g5 g6
    unfold status
    rw [key.2.2, key2.2.2]

/-- Witness of C2 on a system where every query succeeds. -/
theorem status_all_succeed_witness :
    (status plain healthy).result = .ok () ∧
      sections (status plain healthy).trace =
        [ ["System", "Name: Ultramarine", "Version: 40", "Variant: Atomic Desktop",
            "Atomic: True"],
          ["Hardware", "Vendor: Framework", "Product: Laptop",
            "Memory: 0 (physical), 0 (usuable)", "Swap: 0", "CPU: Ryzen (amd64)",
            "Disk Free: 0"],
          ["Disk"],
          ["Desktop", "Name: ", "Protocol: Unknown"],
          ["Status", "Uptime: 1h0m0s", "Kernel: 6.9.0",
            "Packages: 0 rpms, 0 system flatpaks, 0 user flatpaks"],
          ["Network", "wlan0 (802-11-wireless): Connected"] ] :=
  have h := status_all_succeed plain healthy _ _ _ _ _ _ rfl rfl rfl rfl rfl rfl
  ⟨h.1, h.2.2.1⟩

end Um
